import Mathlib

/-!
# Shallow embedding of the unq rate limiter (placTc/unq)

This file embeds the core of the `unq` call-rate governor in Lean 4 and
proves properties of the embedded code.

Embedded source files:
* `src/unq/models/repetition_interval.py` — the `RepetitionInterval`
  dataclass and its `__post_init__` validation;
* `src/src/unq/services/rate_limiter.py` — the `RateLimiter` class:
  interval type-checking and calculation, `submit`, `start`, `stop`,
  the dispatch loop `_run`, `_execute_function_call`, and
  `_execute_coroutine_threaded`;
* `src/src/unq/services/_context_managed_rate_limiter.py` — the
  context-managed facade's `submit`.

Modelling conventions:
* Python `float` values are modelled as `Rat`.  Every comparison proved
  here equates the code's arithmetic expression with the very same
  expression from the specification, so the `Rat`/IEEE-754 gap does not
  affect any statement.
* Python exceptions are modelled by the `PyError` type; code that can
  raise returns `Except PyError _` (or a pair carrying an
  `Option PyError`) instead of mutating and raising.
* Mutation of `self` is modelled by explicit state passing over
  `RateLimiterState`.
-/

namespace Unq

/-- A Python runtime value as far as `RepetitionInterval.__post_init__` can
observe it: the validation there compares `value.__class__ is int`, so the
constructor records the exact runtime class (`bool` is a distinct class from
`int` in Python even though `True == 1`). -/
inductive PyNum where
  | pyInt (n : Int)
  | pyBool (b : Bool)
  | pyFloat (q : Rat)
deriving DecidableEq

/-- `value.__class__ is int` for a `PyNum`. -/
def PyNum.isClassInt : PyNum → Bool
  | .pyInt _ => true
  | .pyBool _ => false
  | .pyFloat _ => false

/-- Numeric value of a `PyNum`, as used by Python arithmetic
(`True` behaves as `1`, `False` as `0`). -/
def PyNum.toRat : PyNum → Rat
  | .pyInt n => (n : Rat)
  | .pyBool b => if b then 1 else 0
  | .pyFloat q => q

/-- Python exceptions relevant to the embedded code.  `raised code` stands
for an arbitrary exception raised by a submitted user function (the payload
is an opaque tag distinguishing different user errors). -/
inductive PyError where
  | valueError (msg : String)
  | typeError (msg : String)
  | zeroDivisionError
  | raised (code : Nat)
deriving DecidableEq

/-- `RepetitionInterval` (src/unq/models/repetition_interval.py): a frozen
dataclass with fields `timeframe`, `every`, `times`.  `every` and `times`
are kept as `PyNum` because `__post_init__` inspects their runtime class. -/
structure RepetitionInterval where
  timeframe : String := "second"
  every : PyNum := .pyInt 1
  times : PyNum := .pyInt 1
deriving DecidableEq

/-- The `__args__` of the `Literal` annotation of
`RepetitionInterval.timeframe`. -/
def timeframeLiterals : List String := ["second", "minute", "hour", "s", "m", "h"]

/-- `RepetitionInterval.__post_init__`: asserts, in order, that `timeframe`
is one of the `Literal` arguments, that `every.__class__ is int`, and that
`times.__class__ is int`; an `AssertionError` is re-raised as `ValueError`.
On success the dataclass instance (unchanged) is the constructed value. -/
def RepetitionInterval.postInit (r : RepetitionInterval) : Except PyError RepetitionInterval :=
  if timeframeLiterals.contains r.timeframe then
    if r.every.isClassInt then
      if r.times.isClassInt then
        .ok r
      else
        .error (.valueError "times was of wrong type, expected int")
    else
      .error (.valueError "every was of wrong type, expected int")
  else
    .error (.valueError "Invalid timeframe provided.")

/-- Python float division: `a / b` raises `ZeroDivisionError` when `b == 0`. -/
def pyFloatDiv (a b : Rat) : Except PyError Rat :=
  if b = 0 then .error .zeroDivisionError else .ok (a / b)

/-- `RateLimiter._calculate_repetition_interval`
(src/src/unq/services/rate_limiter.py, lines 169-196): matches the
timeframe against `"seconds" | "s"`, `"minutes" | "m"`, `"hours" | "h"`,
multiplying `base_interval = 1.0` by 1, 60 or 3600, raising
`ValueError("Invalid timeframe set.")` on anything else; then divides by
`times` and multiplies by `every`. -/
def calculateRepetitionInterval (r : RepetitionInterval) : Except PyError Rat := do
  let timeframe := r.timeframe
  let base_interval : Rat := 1
  let base_interval : Rat ←
    if timeframe == "seconds" || timeframe == "s" then pure (base_interval * 1)
    else if timeframe == "minutes" || timeframe == "m" then pure (base_interval * 60)
    else if timeframe == "hours" || timeframe == "h" then pure (base_interval * 3600)
    else .error (.valueError "Invalid timeframe set.")
  let base_interval ← pyFloatDiv base_interval r.times.toRat
  let base_interval := base_interval * r.every.toRat
  pure base_interval

/-- The possible runtime types of the `repetition_interval` argument of
`RateLimiter.__init__` and of the `repetition_interval` setter, as the
`isinstance`/`hasattr` chain in
`_typecheck_set_repetition_interval_type` distinguishes them:
a `float`, a `RepetitionInterval`, some other object with a `__float__`
method (carrying the value that `float(...)` would return), or anything
else. -/
inductive RepetitionIntervalValue where
  | pyFloat (q : Rat)
  | interval (r : RepetitionInterval)
  | floatCastable (q : Rat)
  | other
deriving DecidableEq

/-- `RateLimiter._typecheck_set_repetition_interval_type`
(src/src/unq/services/rate_limiter.py, lines 148-167): returns the seconds
value that the method assigns to `self._repetition_interval`, or the
exception it raises (`TypeError` for an unsupported type; a `ValueError`
propagates out of `_calculate_repetition_interval`). -/
def typecheckSetRepetitionIntervalType (v : RepetitionIntervalValue) : Except PyError Rat :=
  match v with
  | .pyFloat q => .ok q
  | .interval r => calculateRepetitionInterval r
  | .floatCastable q => .ok q
  | .other => .error (.typeError "repetition_interval was of incorrect type.")

/-- The state of an `asyncio.Future`: created pending by
`loop.create_future()`, later settled exactly once by `set_result` or
`set_exception`. -/
inductive FutureState where
  | pending
  | resolved (v : Int)
  | failed (e : PyError)
deriving DecidableEq

/-- The outcome of invoking a submitted function (or of driving a submitted
coroutine to completion): it returns a value or raises an exception.
Result values are modelled as `Int`. -/
inductive CallOutcome where
  | returns (v : Int)
  | raises (e : PyError)
deriving DecidableEq

/-- The kinds of object a caller can pass to `submit` as `function`, as far
as the worker (`_execute_function_call`) distinguishes them:
* `sync outcome` — an ordinary callable, for which
  `iscoroutinefunction` is false and direct invocation produces `outcome`;
* `coro suspensions outcome` — a coroutine function: driving its coroutine
  needs `suspensions` yields back to the event loop before it finishes with
  `outcome`;
* `notCallable` — a bad function reference: invoking it raises `TypeError`.
`submit` itself never inspects this value. -/
inductive FuncKind where
  | sync (outcome : CallOutcome)
  | coro (suspensions : Nat) (outcome : CallOutcome)
  | notCallable
deriving DecidableEq

/-- `_FutureFunctionCall` (src/src/unq/models/_future_function_call.py):
the frozen record bundling an optional future (identified here by its id in
the event loop's future table), the function, and its arguments. -/
structure FutureFunctionCall where
  future : Option Nat
  function : FuncKind
  args : List Int
  kwargs : List (String × Int)
deriving DecidableEq

/-- The mutable state of a `RateLimiter` object together with the futures
its event loop has created:
* `repetition_interval` — `self._repetition_interval`, seconds per call;
* `stopped` — `self._stopped`;
* `runnerActive` — whether `self._internal_runner_thread` is a started,
  not-yet-joined thread;
* `call_queue` — `self._call_queue` front first;
* `nextFutureId`/`futures` — the event loop's future table:
  `create_future()` yields the id `nextFutureId` and records it pending. -/
structure RateLimiterState where
  repetition_interval : Rat
  stopped : Bool
  runnerActive : Bool
  call_queue : List FutureFunctionCall
  nextFutureId : Nat
  futures : List (Nat × FutureState)
deriving DecidableEq

/-- The state `RateLimiter.__init__` builds once
`_typecheck_set_repetition_interval_type` has produced the seconds value
`q`: stopped, runner thread created but not started, empty queue. -/
def initialState (q : Rat) : RateLimiterState :=
  { repetition_interval := q
    stopped := true
    runnerActive := false
    call_queue := []
    nextFutureId := 0
    futures := [] }

/-- `RateLimiter.__init__` (src/src/unq/services/rate_limiter.py, lines
32-45): type-checks and resolves the interval argument first (propagating
its exception), then initialises `_stopped = True`, the empty queue, the
event loop handle, the (unstarted) runner thread and the executor. -/
def RateLimiter_init (v : RepetitionIntervalValue) : Except PyError RateLimiterState :=
  match typecheckSetRepetitionIntervalType v with
  | .ok q => .ok (initialState q)
  | .error e => .error e

/-- The `repetition_interval` property setter (src/src/unq/services/
rate_limiter.py, lines 108-121): under `_rep_interval_lock` it runs
`_typecheck_set_repetition_interval_type`, which assigns
`self._repetition_interval` only on success; on an exception the state is
unchanged and the exception propagates to the caller (returned here as
`some e`). -/
def setRepetitionInterval (s : RateLimiterState) (v : RepetitionIntervalValue) :
    RateLimiterState × Option PyError :=
  match typecheckSetRepetitionIntervalType v with
  | .ok q => ({ s with repetition_interval := q }, none)
  | .error e => (s, some e)

/-- `RateLimiter.submit` (src/src/unq/services/rate_limiter.py, lines
51-74): if `keep_result` then `future = self._event_loop.create_future()`
(a fresh pending future) else `future = None`; build the
`_FutureFunctionCall`, append it to `self._call_queue` under
`_queue_lock`, notify the queue condition, and return `future`.  The
function reference is never inspected, and no branch raises. -/
def submit (s : RateLimiterState) (function : FuncKind) (keep_result : Bool)
    (args : List Int) (kwargs : List (String × Int)) :
    Option Nat × RateLimiterState :=
  let future : Option Nat := if keep_result then some s.nextFutureId else none
  let s1 : RateLimiterState :=
    if keep_result then
      { s with
        nextFutureId := s.nextFutureId + 1
        futures := s.futures ++ [(s.nextFutureId, FutureState.pending)] }
    else s
  let function_call : FutureFunctionCall := ⟨future, function, args, kwargs⟩
  (future, { s1 with call_queue := s1.call_queue ++ [function_call] })

/-- The record that `submit` appends to the queue. -/
def submitRecord (s : RateLimiterState) (function : FuncKind) (keep_result : Bool)
    (args : List Int) (kwargs : List (String × Int)) : FutureFunctionCall :=
  ⟨if keep_result then some s.nextFutureId else none, function, args, kwargs⟩

/-- `RateLimiter.start` (src/src/unq/services/rate_limiter.py, lines
76-82): only when `self.stopped` it creates a fresh runner thread, starts
it and clears the flag; otherwise it does nothing. -/
def start (s : RateLimiterState) : RateLimiterState :=
  if s.stopped then { s with stopped := false, runnerActive := true } else s

/-- `RateLimiter.stop` (src/src/unq/services/rate_limiter.py, lines
84-90): only when `not self.stopped` it sets the flag, notifies the queue
condition, and joins the runner thread (blocking until it exits);
otherwise it returns at once.  The boolean of the result records whether
the call performed the blocking `join`. -/
def stop (s : RateLimiterState) : RateLimiterState × Bool :=
  if s.stopped then
    (s, false)
  else
    ({ s with stopped := true, runnerActive := false }, true)

/-- One pass of the dispatch loop `RateLimiter._run` (src/src/unq/services/
rate_limiter.py, lines 123-137), observed at the granularity of queue
effects: when `self.stopped`, the loop exits and dequeues nothing; when the
queue is empty (and the limiter is running) the loop is blocked in
`self._queue_condition.wait()` and dequeues nothing; otherwise it dequeues
`self._call_queue.get()` — the oldest record — and hands exactly that
record to the executor. -/
def runIteration (s : RateLimiterState) : RateLimiterState × Option FutureFunctionCall :=
  if s.stopped then
    (s, none)
  else
    match s.call_queue with
    | [] => (s, none)
    | c :: rest => ({ s with call_queue := rest }, some c)

/-- `_ContextManagedRateLimiter.submit`
(src/src/unq/services/_context_managed_rate_limiter.py, lines 14-18):
`if keep_result: return self._rate_limiter.submit(function, True, ...)`
`else: return self._rate_limiter.submit(function, False, ...)`. -/
def contextManagedSubmit (s : RateLimiterState) (function : FuncKind)
    (keep_result : Bool) (args : List Int) (kwargs : List (String × Int)) :
    Option Nat × RateLimiterState :=
  if keep_result then submit s function true args kwargs
  else submit s function false args kwargs

/-- What one pooled worker running `_execute_function_call` does:
* `settlement` — the `future.set_result`/`future.set_exception` call that
  the worker hands to `call_soon_threadsafe` (none when no future is
  attached or the worker never reaches the hand-off);
* `blockedForever` — the worker is stuck in a call that never returns
  (`future.result()` on a future its event loop will never complete). -/
structure ExecutionEffect where
  settlement : Option (Nat × FutureState)
  blockedForever : Bool
deriving DecidableEq

/-- `RateLimiter._execute_coroutine_threaded` (src/src/unq/services/
rate_limiter.py, lines 217-223): spin up a fresh event loop in a daemon
thread via `loop.run_forever`, schedule the coroutine with
`run_coroutine_threadsafe`, immediately call `loop.stop()`, and block on
`future.result()`.

asyncio is outside this repository, so its documented semantics are
embedded: `loop.stop()` makes `run_forever` return at its next
iteration-boundary check, and a task resumes at most once per loop
iteration (one resumption per yield back to the loop).  Because `stop()`
is issued concurrently with the loop thread's start-up, the loop performs
some schedule-dependent number `loopIters` of task-resumption iterations
before it observes the stop flag and exits.  A coroutine needing
`suspensions` yields finishes within `suspensions + 1` resumptions, so
`future.result()` returns its outcome iff `suspensions + 1 ≤ loopIters`;
otherwise the loop is torn down with the task unfinished, the future is
never completed, and `future.result()` (called with no timeout) blocks
the worker forever, returning nothing. -/
def executeCoroutineThreaded (suspensions : Nat) (outcome : CallOutcome)
    (loopIters : Nat) : Option CallOutcome :=
  if suspensions + 1 ≤ loopIters then some outcome else none

/-- `RateLimiter._execute_function_call` (src/src/unq/services/
rate_limiter.py, lines 198-215): inside `try`, the call is routed through
`_execute_coroutine_threaded` when `iscoroutinefunction(function)` and
invoked directly otherwise; on a result, `set_result` is handed to
`call_soon_threadsafe` when a future is attached; `except Exception`
catches any exception the call raised and hands `set_exception` to
`call_soon_threadsafe` when a future is attached, and otherwise discards
it.  No branch re-raises, so nothing escapes the worker.  `loopIters` is
the schedule parameter of the throwaway event loop (see
`executeCoroutineThreaded`); it is irrelevant for non-coroutine
functions. -/
def executeFunctionCall (call : FutureFunctionCall) (loopIters : Nat) : ExecutionEffect :=
  let result : Option CallOutcome :=
    match call.function with
    | .coro suspensions outcome => executeCoroutineThreaded suspensions outcome loopIters
    | .sync outcome => some outcome
    | .notCallable => some (.raises (.typeError "object is not callable"))
  match result with
  | none => { settlement := none, blockedForever := true }
  | some (.returns v) =>
      { settlement := call.future.map (fun id => (id, FutureState.resolved v))
        blockedForever := false }
  | some (.raises e) =>
      { settlement := call.future.map (fun id => (id, FutureState.failed e))
        blockedForever := false }

/-- The executor pool runs each handed-over record as an independent
`_execute_function_call` task: `self._executor.submit(...)` per record,
with no shared state between tasks. -/
def executePool (calls : List FutureFunctionCall) (loopIters : Nat) : List ExecutionEffect :=
  calls.map (fun c => executeFunctionCall c loopIters)

/-- The externally driven events of a `RateLimiter`: a caller invoking
`submit`, `start` or `stop`, or the dispatch thread completing one pass of
the `_run` loop.  The queue lock serializes all of these queue accesses,
so a concurrent history is a sequence of these operations. -/
inductive GovernorOp where
  | submitOp (function : FuncKind) (keep_result : Bool)
      (args : List Int) (kwargs : List (String × Int))
  | startOp
  | stopOp
  | dispatchOp
deriving DecidableEq

/-- A `RateLimiter` state instrumented with its observable history:
`enqueued` lists every record ever put on the queue, in the serialized
order of the `put` calls, and `dispatched` lists every record handed to
the executor, in hand-over order. -/
structure TraceState where
  rl : RateLimiterState
  enqueued : List FutureFunctionCall
  dispatched : List FutureFunctionCall
deriving DecidableEq

/-- One operation acting on the instrumented state.  The `rl` component
evolves exactly by the embedded `submit`/`start`/`stop`/`runIteration`;
the history components only record what those operations did. -/
def stepOp (t : TraceState) : GovernorOp → TraceState
  | .submitOp f k a kw =>
      { rl := (submit t.rl f k a kw).2
        enqueued := t.enqueued ++ [submitRecord t.rl f k a kw]
        dispatched := t.dispatched }
  | .startOp => { t with rl := start t.rl }
  | .stopOp => { t with rl := (stop t.rl).1 }
  | .dispatchOp =>
      { rl := (runIteration t.rl).1
        enqueued := t.enqueued
        dispatched := t.dispatched ++ (runIteration t.rl).2.toList }

/-- Run a sequence of operations. -/
def runOps (t : TraceState) : List GovernorOp → TraceState
  | [] => t
  | op :: ops => runOps (stepOp t op) ops

/-- The FIFO invariant: the records handed to the executor, followed by the
records still queued, are exactly the records ever enqueued, in enqueue
order.  In particular `dispatched` is always a prefix of `enqueued`. -/
def fifoInv (t : TraceState) : Prop :=
  t.dispatched ++ t.rl.call_queue = t.enqueued

/-- A fresh instrumented state over a just-constructed limiter. -/
def initialTrace (q : Rat) : TraceState :=
  { rl := initialState q, enqueued := [], dispatched := [] }

/-- The timeframe tokens that `_calculate_repetition_interval` recognizes:
the three plural full words and the three one-letter aliases (these are
not the tokens `RepetitionInterval.__post_init__` accepts, which are the
singular full words plus the same aliases). -/
def timeframeRecognized (tf : String) : Bool :=
  tf == "seconds" || tf == "s" || tf == "minutes" || tf == "m" || tf == "hours" || tf == "h"

/-- The seconds-per-timeframe base that `_calculate_repetition_interval`
accumulates for a recognized timeframe. -/
def timeframeBase (tf : String) : Rat :=
  if tf == "seconds" || tf == "s" then 1
  else if tf == "minutes" || tf == "m" then 60
  else 3600

/-- The interval arguments that are neither numeric, nor convertible to a
numeric seconds value, nor an interval spec whose timeframe the
calculation recognizes. -/
def invalidIntervalValue : RepetitionIntervalValue → Bool
  | .other => true
  | .interval r => !timeframeRecognized r.timeframe
  | .pyFloat _ => false
  | .floatCastable _ => false

/-- `timeframeBase` is positive on every timeframe. -/
theorem timeframeBase_pos (tf : String) : 0 < timeframeBase tf := by
  unfold timeframeBase
  split_ifs <;> norm_num

/-- On a recognized timeframe, `_calculate_repetition_interval` performs
`base / times * every`, raising `ZeroDivisionError` when `times == 0`. -/
theorem calc_recognized (r : RepetitionInterval) (h : timeframeRecognized r.timeframe = true) :
    calculateRepetitionInterval r =
      if r.times.toRat = 0 then .error .zeroDivisionError
      else .ok (timeframeBase r.timeframe / r.times.toRat * r.every.toRat) := by
  obtain ⟨tf, e, t⟩ := r
  simp only [timeframeRecognized, Bool.or_eq_true, beq_iff_eq] at h
  simp only [calculateRepetitionInterval, pyFloatDiv, timeframeBase]
  rcases h with ((((rfl | rfl) | rfl) | rfl) | rfl) | rfl <;>
    simp <;> split_ifs <;> simp_all

/-- On an unrecognized timeframe, `_calculate_repetition_interval` raises
`ValueError("Invalid timeframe set.")`. -/
theorem calc_unrecognized (r : RepetitionInterval)
    (h : timeframeRecognized r.timeframe = false) :
    calculateRepetitionInterval r = .error (.valueError "Invalid timeframe set.") := by
  obtain ⟨tf, e, t⟩ := r
  simp only [timeframeRecognized, Bool.or_eq_false_iff, beq_eq_false_iff_ne, ne_eq] at h
  obtain ⟨⟨⟨⟨⟨h1, h2⟩, h3⟩, h4⟩, h5⟩, h6⟩ := h
  simp [calculateRepetitionInterval, pyFloatDiv, h1, h2, h3, h4, h5, h6, bind, Except.bind]

/-- Every single operation preserves the FIFO invariant. -/
theorem fifoInv_stepOp (t : TraceState) (op : GovernorOp) (h : fifoInv t) :
    fifoInv (stepOp t op) := by
  cases op with
  | submitOp f k a kw =>
      have h2 : t.dispatched ++ (t.rl.call_queue ++ [submitRecord t.rl f k a kw])
          = t.enqueued ++ [submitRecord t.rl f k a kw] := by
        rw [← List.append_assoc, h]
      cases k <;> simpa [fifoInv, stepOp, submit, submitRecord] using h2
  | startOp =>
      by_cases hs : t.rl.stopped <;> simp_all [fifoInv, stepOp, start]
  | stopOp =>
      by_cases hs : t.rl.stopped <;> simp_all [fifoInv, stepOp, stop]
  | dispatchOp =>
      simp only [fifoInv, stepOp, runIteration] at h ⊢
      by_cases hs : t.rl.stopped
      · simp_all
      · cases hq : t.rl.call_queue <;> simp_all

/-- Any sequence of operations preserves the FIFO invariant. -/
theorem fifoInv_runOps (t : TraceState) (ops : List GovernorOp) (h : fifoInv t) :
    fifoInv (runOps t ops) := by
  induction ops generalizing t with
  | nil => simpa [runOps] using h
  | cons op ops ih => exact ih _ (fifoInv_stepOp t op h)

/-- C1: the claim says every `RepetitionInterval` over the six accepted
tokens (`second`, `minute`, `hour`, `s`, `m`, `h`) resolves to
`(base / times) * every` seconds, with `timeframe=hour, every=1, times=3`
resolving to 1200.0.  On the code this fails for the three full words:
`__post_init__` accepts the singular words, but
`_calculate_repetition_interval` matches only the plural words and the
one-letter aliases, so `hour` (and `second`, `minute`) raises
`ValueError("Invalid timeframe set.")` instead of resolving; only the
aliases follow the claimed formula. -/
theorem unq_c1_full_word_timeframes_fail_resolution :
    RepetitionInterval.postInit ⟨"hour", .pyInt 1, .pyInt 3⟩ = .ok ⟨"hour", .pyInt 1, .pyInt 3⟩
    ∧ calculateRepetitionInterval ⟨"hour", .pyInt 1, .pyInt 3⟩
        = .error (.valueError "Invalid timeframe set.")
    ∧ calculateRepetitionInterval ⟨"second", .pyInt 1, .pyInt 1⟩
        = .error (.valueError "Invalid timeframe set.")
    ∧ calculateRepetitionInterval ⟨"minute", .pyInt 1, .pyInt 1⟩
        = .error (.valueError "Invalid timeframe set.")
    ∧ calculateRepetitionInterval ⟨"h", .pyInt 1, .pyInt 3⟩ = .ok 1200
    ∧ calculateRepetitionInterval ⟨"m", .pyInt 1, .pyInt 2⟩ = .ok 30
    ∧ calculateRepetitionInterval ⟨"s", .pyInt 2, .pyInt 4⟩ = .ok (1 / 2) := by
  refine ⟨rfl, rfl, rfl, rfl, ?_, ?_, ?_⟩
  · have hb : timeframeBase "h" = 3600 := rfl
    rw [calc_recognized _ (by decide), hb]
    norm_num [PyNum.toRat]
  · have hb : timeframeBase "m" = 60 := rfl
    rw [calc_recognized _ (by decide), hb]
    norm_num [PyNum.toRat]
  · have hb : timeframeBase "s" = 1 := rfl
    rw [calc_recognized _ (by decide), hb]
    norm_num [PyNum.toRat]

/-- C7, counterexample: the claim says construction requires `every` and
`times` to be positive and that every constructed spec resolves to a
nonnegative seconds value.  On the code, `__post_init__` never checks
positivity: `every = -1` is accepted and resolves to `-1.0 < 0` seconds,
and `times = 0` is accepted and resolution raises `ZeroDivisionError`. -/
theorem unq_c7_positivity_not_enforced :
    RepetitionInterval.postInit ⟨"s", .pyInt (-1), .pyInt 1⟩ = .ok ⟨"s", .pyInt (-1), .pyInt 1⟩
    ∧ calculateRepetitionInterval ⟨"s", .pyInt (-1), .pyInt 1⟩ = .ok (-1)
    ∧ ((-1 : Rat) < 0)
    ∧ RepetitionInterval.postInit ⟨"s", .pyInt 1, .pyInt 0⟩ = .ok ⟨"s", .pyInt 1, .pyInt 0⟩
    ∧ calculateRepetitionInterval ⟨"s", .pyInt 1, .pyInt 0⟩ = .error .zeroDivisionError := by
  refine ⟨rfl, ?_, by norm_num, rfl, ?_⟩
  · have hb : timeframeBase "s" = 1 := rfl
    rw [calc_recognized _ (by decide), hb]
    norm_num [PyNum.toRat]
  · rw [calc_recognized _ (by decide)]
    norm_num [PyNum.toRat]

/-- C7, amended: construction checks only that the timeframe is one of the
six singular-or-alias tokens and that `every` and `times` have runtime
class exactly `int` — positivity is not enforced.  For a spec whose
timeframe the calculation recognizes, resolution with `times ≠ 0` returns
exactly `base / times * every`, and that value is nonnegative whenever
`times > 0` and `every ≥ 0`. -/
theorem unq_c7_resolution_formula (tf : String) (e t : Int) :
    ((RepetitionInterval.postInit ⟨tf, .pyInt e, .pyInt t⟩ = .ok ⟨tf, .pyInt e, .pyInt t⟩)
      ↔ timeframeLiterals.contains tf = true)
    ∧ (timeframeRecognized tf = true → t ≠ 0 →
        calculateRepetitionInterval ⟨tf, .pyInt e, .pyInt t⟩
          = .ok (timeframeBase tf / (t : Rat) * (e : Rat)))
    ∧ (timeframeRecognized tf = true → 0 < t → 0 ≤ e →
        ∃ q : Rat, calculateRepetitionInterval ⟨tf, .pyInt e, .pyInt t⟩ = .ok q ∧ 0 ≤ q) := by
  have hformula : timeframeRecognized tf = true → t ≠ 0 →
      calculateRepetitionInterval ⟨tf, .pyInt e, .pyInt t⟩
        = .ok (timeframeBase tf / (t : Rat) * (e : Rat)) := by
    intro hrec ht
    rw [calc_recognized _ hrec]
    rw [if_neg (by simp [PyNum.toRat, ht])]
    simp [PyNum.toRat]
  refine ⟨?_, hformula, ?_⟩
  · constructor
    · intro h
      by_contra hc
      simp only [RepetitionInterval.postInit, hc] at h
      simp at h
    · intro h
      have hm : tf ∈ timeframeLiterals := by simpa using h
      simp [RepetitionInterval.postInit, h, hm, PyNum.isClassInt]
  · intro hrec ht he
    refine ⟨timeframeBase tf / (t : Rat) * (e : Rat), hformula hrec (by omega), ?_⟩
    have h1 : (0 : Rat) ≤ (t : Rat) := by exact_mod_cast ht.le
    have h2 : (0 : Rat) ≤ (e : Rat) := by exact_mod_cast he
    exact mul_nonneg (div_nonneg (timeframeBase_pos tf).le h1) h2

/-- Witness for `unq_c7_resolution_formula` at `timeframe="h"`, `every=1`,
`times=3`. -/
theorem unq_c7_resolution_formula_witness :
    (timeframeRecognized "h" = true ∧ (3 : Int) ≠ 0 ∧ (0 : Int) < 3 ∧ (0 : Int) ≤ 1)
    ∧ calculateRepetitionInterval ⟨"h", .pyInt 1, .pyInt 3⟩
        = .ok (timeframeBase "h" / (3 : Rat) * (1 : Rat))
    ∧ ∃ q : Rat, calculateRepetitionInterval ⟨"h", .pyInt 1, .pyInt 3⟩ = .ok q ∧ 0 ≤ q :=
  ⟨⟨by decide, by decide, by decide, by decide⟩,
   (unq_c7_resolution_formula "h" 1 3).2.1 (by decide) (by decide),
   (unq_c7_resolution_formula "h" 1 3).2.2 (by decide) (by decide) (by decide)⟩

/-- C10: constructing a `RepetitionInterval` raises `ValueError` exactly
when the timeframe is not one of the `Literal` tokens or the runtime class
of `every` or `times` is not exactly `int`; in particular `True`, `False`
and the whole-number float `2.0` are rejected for `every`/`times` even
though they behave as valid counts, because the validation compares
`__class__ is int`. -/
theorem unq_c10_validation_is_class_check (tf : String) (e t : PyNum) :
    ((RepetitionInterval.postInit ⟨tf, e, t⟩ = .ok ⟨tf, e, t⟩)
      ↔ (timeframeLiterals.contains tf = true
          ∧ e.isClassInt = true ∧ t.isClassInt = true))
    ∧ (∀ err, RepetitionInterval.postInit ⟨tf, e, t⟩ = .error err →
        ∃ m, err = .valueError m)
    ∧ RepetitionInterval.postInit ⟨"second", .pyBool true, .pyInt 1⟩
        = .error (.valueError "every was of wrong type, expected int")
    ∧ RepetitionInterval.postInit ⟨"second", .pyBool false, .pyInt 1⟩
        = .error (.valueError "every was of wrong type, expected int")
    ∧ RepetitionInterval.postInit ⟨"second", .pyInt 1, .pyFloat 2⟩
        = .error (.valueError "times was of wrong type, expected int")
    ∧ RepetitionInterval.postInit ⟨"second", .pyInt 2, .pyInt 1⟩
        = .ok ⟨"second", .pyInt 2, .pyInt 1⟩ := by
  refine ⟨?_, ?_, rfl, rfl, rfl, rfl⟩
  · unfold RepetitionInterval.postInit
    split_ifs with h1 h2 h3 <;> simp_all
  · intro err herr
    unfold RepetitionInterval.postInit at herr
    split_ifs at herr <;>
      first
        | exact ⟨_, herr.symm⟩
        | (injection herr with h2; exact ⟨_, h2.symm⟩)

/-- C2: records are dispatched in strict FIFO submission order: under any
interleaving of `submit`, `start`, `stop` and dispatch-loop iterations,
the records handed to the execution pool followed by the records still
queued are exactly the records ever enqueued, in enqueue order (so the
dispatch order is a prefix of the submission order and never reorders);
moreover a dispatching iteration dequeues exactly the oldest queued
record. -/
theorem unq_c2_fifo_dispatch_order (t : TraceState) (ops : List GovernorOp)
    (h : fifoInv t) :
    fifoInv (runOps t ops)
    ∧ (∀ (c : FutureFunctionCall) (rest : List FutureFunctionCall),
        t.rl.stopped = false → t.rl.call_queue = c :: rest →
        (stepOp t .dispatchOp).dispatched = t.dispatched ++ [c]
        ∧ (stepOp t .dispatchOp).rl.call_queue = rest) := by
  refine ⟨fifoInv_runOps t ops h, ?_⟩
  intro c rest hs hq
  constructor <;> simp [stepOp, runIteration, hs, hq]

/-- Witness for `unq_c2_fifo_dispatch_order`: a concrete run of two
submissions, a start, and two dispatch iterations keeps the FIFO
invariant, and the first dispatch hands over the first-submitted
record. -/
theorem unq_c2_fifo_dispatch_order_witness :
    (fifoInv (initialTrace 1)
      ∧ fifoInv (runOps (initialTrace 1)
          [.submitOp (.sync (.returns 1)) false [] [],
           .submitOp (.sync (.returns 2)) true [] [],
           .startOp, .dispatchOp, .dispatchOp]))
    ∧ ((runOps (initialTrace 1)
          [.submitOp (.sync (.returns 1)) false [] [],
           .submitOp (.sync (.returns 2)) true [] [],
           .startOp]).rl.stopped = false
      ∧ (stepOp (runOps (initialTrace 1)
          [.submitOp (.sync (.returns 1)) false [] [],
           .submitOp (.sync (.returns 2)) true [] [],
           .startOp]) .dispatchOp).dispatched
        = [⟨none, .sync (.returns 1), [], []⟩]) :=
  ⟨⟨by rfl,
    (unq_c2_fifo_dispatch_order (initialTrace 1)
      [.submitOp (.sync (.returns 1)) false [] [],
       .submitOp (.sync (.returns 2)) true [] [],
       .startOp, .dispatchOp, .dispatchOp] (by rfl)).1⟩,
   ⟨by rfl,
    ((unq_c2_fifo_dispatch_order
        (runOps (initialTrace 1)
          [.submitOp (.sync (.returns 1)) false [] [],
           .submitOp (.sync (.returns 2)) true [] [],
           .startOp]) [] (by rfl)).2
      ⟨none, .sync (.returns 1), [], []⟩
      [⟨some 0, .sync (.returns 2), [], []⟩]
      (by rfl) (by rfl)).1⟩⟩

/-- C3: `submit` with `keep_result = true` creates a fresh pending future,
bundles it into the enqueued record and returns it immediately; with
`keep_result = false` it allocates no future and returns nothing while
still enqueuing the record; and it behaves this way uniformly in the
function argument — a bad function reference is enqueued without any
synchronous failure. -/
theorem unq_c3_submit_shape (s : RateLimiterState) (f : FuncKind)
    (args : List Int) (kwargs : List (String × Int)) :
    ((submit s f true args kwargs).1 = some s.nextFutureId
      ∧ (submit s f true args kwargs).2.futures
          = s.futures ++ [(s.nextFutureId, FutureState.pending)]
      ∧ (submit s f true args kwargs).2.call_queue
          = s.call_queue ++ [⟨some s.nextFutureId, f, args, kwargs⟩])
    ∧ ((submit s f false args kwargs).1 = none
      ∧ (submit s f false args kwargs).2.futures = s.futures
      ∧ (submit s f false args kwargs).2.call_queue
          = s.call_queue ++ [⟨none, f, args, kwargs⟩])
    ∧ ((∀ p ∈ s.futures, p.1 < s.nextFutureId) →
        ∀ p ∈ s.futures, (submit s f true args kwargs).1 ≠ some p.1)
    ∧ (∀ keep : Bool, (submit s .notCallable keep args kwargs).2.call_queue
        = s.call_queue ++ [submitRecord s .notCallable keep args kwargs]) := by
  refine ⟨⟨rfl, rfl, rfl⟩, ⟨rfl, rfl, rfl⟩, ?_, ?_⟩
  · intro hbound p hp hcontra
    simp only [submit] at hcontra
    simp at hcontra
    have := hbound p hp
    omega
  · intro keep
    cases keep <;> rfl

/-- Witness for `unq_c3_submit_shape`: over a state that already holds one
allocated future (id 0, below the allocation counter 1), the handle
returned by a kept-result `submit` is distinct from it. -/
theorem unq_c3_submit_shape_witness :
    (∀ p ∈ (⟨1, true, false, [], 1, [(0, FutureState.pending)]⟩ : RateLimiterState).futures,
      p.1 < (⟨1, true, false, [], 1, [(0, FutureState.pending)]⟩ : RateLimiterState).nextFutureId)
    ∧ ∀ p ∈ (⟨1, true, false, [], 1, [(0, FutureState.pending)]⟩ : RateLimiterState).futures,
        (submit ⟨1, true, false, [], 1, [(0, FutureState.pending)]⟩
          (.sync (.returns 0)) true [] []).1 ≠ some p.1 :=
  ⟨by decide,
   (unq_c3_submit_shape ⟨1, true, false, [], 1, [(0, FutureState.pending)]⟩
      (.sync (.returns 0)) [] []).2.2.1 (by decide)⟩

/-- C8: `start` and `stop` are idempotent — a second `start` on a running
limiter and a second `stop` on a stopped limiter change nothing, the
second `stop` performing no blocking `join`; and `stop` on a
freshly-constructed (never-started) limiter leaves `stopped = true` and
returns without joining. -/
theorem unq_c8_start_stop_idempotent (s : RateLimiterState) (q : Rat) :
    start (start s) = start s
    ∧ (stop (stop s).1).1 = (stop s).1
    ∧ (stop (stop s).1).2 = false
    ∧ (initialState q).stopped = true
    ∧ stop (initialState q) = (initialState q, false) := by
  refine ⟨?_, ?_, ?_, rfl, rfl⟩
  · by_cases hs : s.stopped <;> simp [start, hs]
  · by_cases hs : s.stopped <;> simp [stop, hs]
  · by_cases hs : s.stopped <;> simp [stop, hs]

/-- Witness for `unq_c10_validation_is_class_check`: the error raised for
a `bool`-classed `every` is a `ValueError`. -/
theorem unq_c10_validation_is_class_check_witness :
    RepetitionInterval.postInit ⟨"second", .pyBool true, .pyInt 1⟩
      = .error (.valueError "every was of wrong type, expected int")
    ∧ ∃ m, (PyError.valueError "every was of wrong type, expected int")
        = PyError.valueError m :=
  ⟨rfl, (unq_c10_validation_is_class_check "second" (.pyBool true) (.pyInt 1)).2.1 _ rfl⟩

/-- C4: constructing a `RateLimiter` with, or setting the repetition
interval to, a value that is neither numeric, nor convertible to a numeric
seconds value, nor an interval spec with a timeframe the calculation
recognizes, fails with the invalid-interval error (`TypeError` for an
unsupported type, `ValueError` for an unrecognized timeframe), and
whenever the setter fails — for any reason — the stored state, in
particular the previous seconds-per-call value, is left intact. -/
theorem unq_c4_invalid_interval_rejected (s : RateLimiterState)
    (v : RepetitionIntervalValue) :
    (invalidIntervalValue v = true →
      (∃ e, RateLimiter_init v = .error e)
      ∧ (∃ e, (setRepetitionInterval s v).2 = some e))
    ∧ (∀ e, (setRepetitionInterval s v).2 = some e →
        (setRepetitionInterval s v).1 = s) := by
  constructor
  · intro hv
    match v with
    | .other => exact ⟨⟨_, rfl⟩, ⟨_, rfl⟩⟩
    | .pyFloat q => simp [invalidIntervalValue] at hv
    | .floatCastable q => simp [invalidIntervalValue] at hv
    | .interval r =>
        simp only [invalidIntervalValue, Bool.not_eq_eq_eq_not, Bool.not_true] at hv
        have hcalc := calc_unrecognized r hv
        refine ⟨⟨.valueError "Invalid timeframe set.", ?_⟩,
                ⟨.valueError "Invalid timeframe set.", ?_⟩⟩
        · simp [RateLimiter_init, typecheckSetRepetitionIntervalType, hcalc]
        · simp [setRepetitionInterval, typecheckSetRepetitionIntervalType, hcalc]
  · intro e he
    unfold setRepetitionInterval at he ⊢
    cases htc : typecheckSetRepetitionIntervalType v <;> simp [htc] at he ⊢

/-- Witness for `unq_c4_invalid_interval_rejected` at the interval spec
`timeframe="hour"` (accepted by the model, unrecognized by the
calculation) against a freshly-built state. -/
theorem unq_c4_invalid_interval_rejected_witness :
    (invalidIntervalValue (.interval ⟨"hour", .pyInt 1, .pyInt 3⟩) = true
      ∧ (∃ e, RateLimiter_init (.interval ⟨"hour", .pyInt 1, .pyInt 3⟩) = .error e)
      ∧ (∃ e, (setRepetitionInterval (initialState 1)
          (.interval ⟨"hour", .pyInt 1, .pyInt 3⟩)).2 = some e))
    ∧ ((setRepetitionInterval (initialState 1)
          (.interval ⟨"hour", .pyInt 1, .pyInt 3⟩)).2
        = some (.valueError "Invalid timeframe set.")
      ∧ (setRepetitionInterval (initialState 1)
          (.interval ⟨"hour", .pyInt 1, .pyInt 3⟩)).1 = initialState 1) :=
  ⟨⟨by decide,
    ((unq_c4_invalid_interval_rejected (initialState 1)
      (.interval ⟨"hour", .pyInt 1, .pyInt 3⟩)).1 (by decide)).1,
    ((unq_c4_invalid_interval_rejected (initialState 1)
      (.interval ⟨"hour", .pyInt 1, .pyInt 3⟩)).1 (by decide)).2⟩,
   ⟨by rfl,
    (unq_c4_invalid_interval_rejected (initialState 1)
      (.interval ⟨"hour", .pyInt 1, .pyInt 3⟩)).2 _ (by rfl)⟩⟩

/-- C5, counterexample: the claim says the context-managed facade exposes
only "submit with result kept" and that submitting without keeping a
result is disallowed through it.  On the code the facade forwards
`keep_result = False` unchanged: a no-result submission through the facade
succeeds, enqueues the fire-and-forget record, and returns nothing. -/
theorem unq_c5_facade_allows_fire_and_forget :
    (contextManagedSubmit (initialState 1) (.sync (.returns 0)) false [] []).1 = none
    ∧ (contextManagedSubmit (initialState 1) (.sync (.returns 0)) false [] []).2.call_queue
        = [⟨none, .sync (.returns 0), [], []⟩]
    ∧ ¬((contextManagedSubmit (initialState 1) (.sync (.returns 0)) false [] []).2.call_queue
        = (initialState 1).call_queue) := by
  refine ⟨rfl, rfl, ?_⟩
  intro h
  simp [contextManagedSubmit, submit, initialState] at h

/-- C5, amended: the facade's `submit` is an exact pass-through of the
underlying `RateLimiter.submit`, forwarding `keep_result` unchanged —
both submission modes are available through it; it narrows nothing. -/
theorem unq_c5_facade_is_pass_through (s : RateLimiterState) (f : FuncKind)
    (keep_result : Bool) (args : List Int) (kwargs : List (String × Int)) :
    contextManagedSubmit s f keep_result args kwargs
      = submit s f keep_result args kwargs := by
  cases keep_result <;> rfl

/-- C6: when a submitted function raises on invocation, the worker settles
an attached future to the failure with the original error through the
`call_soon_threadsafe` hand-off, discards the failure when no future is
attached, lets nothing escape (the worker terminates normally either
way), and the pool executes every other queued call exactly as it would
have without the failing one. -/
theorem unq_c6_failures_contained (e : PyError) (id : Nat) (k : Nat)
    (args : List Int) (kwargs : List (String × Int))
    (c₂ : FutureFunctionCall) (cs : List FutureFunctionCall) :
    executeFunctionCall ⟨some id, .sync (.raises e), args, kwargs⟩ k
      = ⟨some (id, .failed e), false⟩
    ∧ executeFunctionCall ⟨none, .sync (.raises e), args, kwargs⟩ k = ⟨none, false⟩
    ∧ executePool (⟨some id, .sync (.raises e), args, kwargs⟩ :: c₂ :: cs) k
        = executeFunctionCall ⟨some id, .sync (.raises e), args, kwargs⟩ k
          :: executeFunctionCall c₂ k :: executePool cs k := by
  refine ⟨rfl, rfl, ?_⟩
  simp [executePool]

/-- C9: at the failing input — a coroutine function whose coroutine
suspends once (e.g. it awaits a sleep) submitted with a kept result —
under the schedule in which the throwaway event loop observes the
immediately-issued `loop.stop()` after one iteration, the worker blocks
forever on `future.result()` and the future is never settled
(`⟨none, true⟩`), whereas a synchronous function with the same outcome
settles the future to its value; only when the loop happens to run enough
iterations (or the coroutine never suspends) does the coroutine behave
identically to the synchronous case, as the claim asserts it always
does. -/
theorem unq_c9_suspending_coroutine_never_settles :
    executeFunctionCall ⟨some 0, .coro 1 (.returns 5), [], []⟩ 1 = ⟨none, true⟩
    ∧ executeFunctionCall ⟨some 0, .sync (.returns 5), [], []⟩ 1
        = ⟨some (0, .resolved 5), false⟩
    ∧ executeFunctionCall ⟨some 0, .coro 1 (.returns 5), [], []⟩ 2
        = ⟨some (0, .resolved 5), false⟩
    ∧ executeFunctionCall ⟨some 0, .coro 0 (.returns 5), [], []⟩ 1
        = ⟨some (0, .resolved 5), false⟩
    ∧ executeFunctionCall ⟨some 0, .coro 1 (.raises (.raised 7)), [], []⟩ 2
        = ⟨some (0, .failed (.raised 7)), false⟩ :=
  ⟨rfl, rfl, rfl, rfl, rfl⟩

end Unq
